import Mathlib

/-!
Verification of the customer-facade SDK (`pamfilico_python_stripe_sdk`).

Shallow embedding of the four source files:
  * `models.py`   — pydantic record shapes and their field constraints;
  * `exceptions.py` — the typed SDK error taxonomy;
  * `stripe_service.py` — the `StripeService` facade over the provider client.

Modelling decisions, each noted at its definition:
  * Python `dict` values of type `Any` are modelled as `String`; the claims
    never inspect metadata values, only presence and emptiness.
  * Parameter dictionaries built by the facade are modelled as association
    lists in insertion order (Python dicts preserve insertion order).
  * The provider client (`stripe.Customer.create/retrieve/modify/list`) is an
    opaque RPC boundary: each operation takes the provider as a function from
    the outbound call it issues to an `Except` of a provider error or a
    structured provider record, exactly the shapes §6 of the spec gives it.
  * Python truthiness tests (`if data.email:`) are embedded as-is via
    `truthyStr` / list emptiness, and `is not None` tests via `Option.isSome`.
-/

namespace StripeSDK

/-- Metadata mapping attached to a customer. Python type is `Dict[str, Any]`;
values are modelled as strings since no claim inspects them. Insertion-ordered
association list. -/
abbrev Metadata := List (String × String)

/-- A value stored in an outbound parameter dictionary: the facade only ever
stores strings or a metadata mapping. -/
inductive ParamValue where
  | str (s : String)
  | meta (m : Metadata)
deriving DecidableEq, Repr

/-- Embeds `models.py` `CustomerCreateInput`: optional `email`, `name`, `phone`,
`description`; `metadata` is non-optional with default `{}`
(`Field(default_factory=dict)`). -/
structure CustomerCreateInput where
  email : Option String
  name : Option String
  phone : Option String
  description : Option String
  metadata : Metadata
deriving DecidableEq, Repr

/-- Embeds `models.py` `CustomerUpdateInput`: like the create input, but `metadata`
is `Dict[str, Any] | None` with default `None`, distinguishing "no change"
(`None`) from "clear" (`{}`). -/
structure CustomerUpdateInput where
  email : Option String
  name : Option String
  phone : Option String
  description : Option String
  metadata : Option Metadata
deriving DecidableEq, Repr

/-- Embeds `models.py` `CustomerData`: the canonical customer record. All fields
other than `id` default to `None`; `metadata` defaults to `{}`. -/
structure CustomerData where
  id : String
  email : Option String
  name : Option String
  phone : Option String
  created : Option Int
  balance : Option Int
  currency : Option String
  delinquent : Option Bool
  description : Option String
  metadata : Metadata
deriving DecidableEq, Repr

/-- Embeds `models.py` `CustomerResponse`: one customer plus a free-form meta mapping
(`Dict[str, Any]`, modelled like `Metadata`). -/
structure CustomerResponse where
  data : CustomerData
  meta : Metadata
deriving DecidableEq, Repr

/-- Embeds `models.py` `CustomerListMeta`: pagination descriptor. `total_count` is a
Python `int` that the facade only ever assigns a `len(...)` to, so `Nat`. -/
structure CustomerListMeta where
  has_more : Bool
  total_count : Nat
  note : Option String
deriving DecidableEq, Repr

/-- Embeds `models.py` `CustomerListResponse`. -/
structure CustomerListResponse where
  data : List CustomerData
  meta : CustomerListMeta
deriving DecidableEq, Repr

/-- One pydantic validation failure: the offending field and the violated
constraint. -/
structure ValidationIssue where
  field : String
  constraint : String
deriving DecidableEq, Repr

/-- Validation of the `name` and `description` constraints of
`CustomerCreateInput`, applied after the `email` check: `name` length must be
in `[1, 255]` when present and `description` length at most 500 when present
(`Field(min_length=1, max_length=255)` resp. `Field(max_length=500)` in
`models.py`); `phone` and `metadata` carry no constraint. -/
def validateCreateRest (name phone description : Option String)
    (metadata : Metadata) (email : Option String) :
    Except ValidationIssue CustomerCreateInput :=
  match name with
  | some n =>
    if n.length < 1 then .error ⟨"name", "min_length"⟩
    else if 255 < n.length then .error ⟨"name", "max_length"⟩
    else
      match description with
      | some d =>
        if 500 < d.length then .error ⟨"description", "max_length"⟩
        else .ok ⟨email, some n, phone, some d, metadata⟩
      | none => .ok ⟨email, some n, phone, none, metadata⟩
  | none =>
    match description with
    | some d =>
      if 500 < d.length then .error ⟨"description", "max_length"⟩
      else .ok ⟨email, none, phone, some d, metadata⟩
    | none => .ok ⟨email, none, phone, none, metadata⟩

/-- Pydantic construction of `CustomerCreateInput`, driven by the `Field`
declarations in `models.py`: `email`, when present, must satisfy the
`EmailStr` syntax (a third-party pydantic check, abstracted as the parameter
`isEmail`); the remaining constraints are in `validateCreateRest`. Validation
is local: this function takes no provider, so no network call can occur. -/
def validateCreateInput (isEmail : String → Bool)
    (email name phone description : Option String) (metadata : Metadata) :
    Except ValidationIssue CustomerCreateInput :=
  match email with
  | some e =>
    if isEmail e then
      validateCreateRest name phone description metadata (some e)
    else
      .error ⟨"email", "value is not a valid email address"⟩
  | none => validateCreateRest name phone description metadata none

/-- A customer record returned by the provider, with the fields §6 of the
spec lists at the RPC boundary: `id, email, name, phone, description,
balance, currency, delinquent, created, metadata`. -/
structure ProviderCustomer where
  id : String
  email : Option String
  name : Option String
  phone : Option String
  description : Option String
  balance : Option Int
  currency : Option String
  delinquent : Option Bool
  created : Option Int
  metadata : Option Metadata
deriving DecidableEq, Repr

/-- A list response from the provider: `data` plus the `has_more` flag. -/
structure ProviderList where
  data : List ProviderCustomer
  has_more : Bool
deriving DecidableEq, Repr

/-- An error raised by the provider client (an opaque `stripe` exception). -/
structure ProviderError where
  msg : String
deriving DecidableEq, Repr

/-- The four specializations of `StripeSDKException` in `exceptions.py`. -/
inductive SDKErrorKind where
  | authentication
  | api
  | invalidRequest
  | validation
deriving DecidableEq, Repr

/-- What a facade operation can raise: either the provider exception escaping
uncaught (`raw`), or a typed SDK exception wrapping the original cause
(`wrapped`, the shape of `StripeSDKException(message, original_error)`). -/
inductive FacadeError where
  | raw (e : ProviderError)
  | wrapped (k : SDKErrorKind) (message : String) (cause : ProviderError)
deriving DecidableEq, Repr

/-- Whether a facade error is one of the typed SDK wrappers. -/
def FacadeError.isWrapped : FacadeError → Bool
  | .raw _ => false
  | .wrapped _ _ _ => true

/-- Embeds `StripeService.__init__`: stores both keys. The Python constructor also
assigns the module-global `stripe.api_key = self.secret_key`; outbound calls
below carry the `secret_key` of the instance as that key. -/
structure StripeService where
  secret_key : String
  publishable_key : String
deriving DecidableEq, Repr

/-- Python truthiness of an optional string: `None` and `""` are falsy. -/
def truthyStr : Option String → Bool
  | some s => !(s == "")
  | none => false

/-- Embeds `stripe_service.py` lines 73-84: the parameter dict `create_customer`
builds, using truthiness tests (`if data.email:` etc.) on each field. -/
def buildCreateParams (data : CustomerCreateInput) : List (String × ParamValue) :=
  (if truthyStr data.email then [("email", ParamValue.str (data.email.getD ""))] else []) ++
  (if truthyStr data.name then [("name", ParamValue.str (data.name.getD ""))] else []) ++
  (if truthyStr data.phone then [("phone", ParamValue.str (data.phone.getD ""))] else []) ++
  (if truthyStr data.description then [("description", ParamValue.str (data.description.getD ""))] else []) ++
  (if data.metadata.isEmpty then [] else [("metadata", ParamValue.meta data.metadata)])

/-- Embeds `stripe_service.py` lines 169-179: the parameter dict `update_customer`
builds, using `is not None` tests on each field. -/
def buildUpdateParams (data : CustomerUpdateInput) : List (String × ParamValue) :=
  (match data.email with | some e => [("email", ParamValue.str e)] | none => []) ++
  (match data.name with | some n => [("name", ParamValue.str n)] | none => []) ++
  (match data.phone with | some p => [("phone", ParamValue.str p)] | none => []) ++
  (match data.description with | some d => [("description", ParamValue.str d)] | none => []) ++
  (match data.metadata with | some m => [("metadata", ParamValue.meta m)] | none => [])

/-- The metadata normalization every mapping site performs:
`dict(customer.metadata) if customer.metadata else {}` — a falsy metadata
(absent or empty) becomes `{}`, otherwise the mapping is copied. -/
def metadataOrEmpty : Option Metadata → Metadata
  | some m => if m.isEmpty then [] else m
  | none => []

/-- The `CustomerData(...)` construction shared verbatim (same keyword set)
by `create_customer` (lines 89-100), `get_customer` (125-136),
`update_customer` (185-196) and `get_customer_by_email` (229-240): every
provider field copied through, metadata normalized. -/
def customerDataOf (c : ProviderCustomer) : CustomerData :=
  { id := c.id
    email := c.email
    name := c.name
    phone := c.phone
    created := c.created
    balance := c.balance
    currency := c.currency
    delinquent := c.delinquent
    description := c.description
    metadata := metadataOrEmpty c.metadata }

/-- The `CustomerData(...)` construction in `list_customers` (lines 300-310):
identical to `customerDataOf` except that the `phone=` keyword is absent from
the constructor call, so the field takes its pydantic default `None`. -/
def customerDataOfListItem (c : ProviderCustomer) : CustomerData :=
  { id := c.id
    email := c.email
    name := c.name
    phone := none
    created := c.created
    balance := c.balance
    currency := c.currency
    delinquent := c.delinquent
    description := c.description
    metadata := metadataOrEmpty c.metadata }

/-- Outbound call of `stripe.Customer.create(**customer_data)`. -/
structure CreateCall where
  apiKey : String
  params : List (String × ParamValue)
deriving DecidableEq, Repr

/-- Outbound call of `stripe.Customer.retrieve(customer_id)`. -/
structure RetrieveCall where
  apiKey : String
  customer_id : String
deriving DecidableEq, Repr

/-- Outbound call of `stripe.Customer.modify(customer_id, **update_data)`. -/
structure ModifyCall where
  apiKey : String
  customer_id : String
  params : List (String × ParamValue)
deriving DecidableEq, Repr

/-- Outbound call of `stripe.Customer.list(email=email)`. -/
structure EmailListCall where
  apiKey : String
  email : String
deriving DecidableEq, Repr

/-- Outbound call of `stripe.Customer.list(**params)` in `list_customers`:
`limit` always present, `starting_after` present only when truthy. -/
structure ListCall where
  apiKey : String
  limit : Int
  starting_after : Option String
deriving DecidableEq, Repr

/-- The outbound call `create_customer` issues (lines 73-86). -/
def create_customer_outbound (s : StripeService) (data : CustomerCreateInput) :
    CreateCall :=
  { apiKey := s.secret_key, params := buildCreateParams data }

/-- Embeds `StripeService.create_customer` (lines 42-102). There is no try/except in
the source: a provider error propagates uncaught, hence `.raw`. -/
def create_customer (s : StripeService)
    (provider : CreateCall → Except ProviderError ProviderCustomer)
    (data : CustomerCreateInput) : Except FacadeError CustomerResponse :=
  match provider (create_customer_outbound s data) with
  | .error e => .error (.raw e)
  | .ok stripe_customer => .ok { data := customerDataOf stripe_customer, meta := [] }

/-- The outbound call `get_customer` issues (line 123). -/
def get_customer_outbound (s : StripeService) (customer_id : String) :
    RetrieveCall :=
  { apiKey := s.secret_key, customer_id := customer_id }

/-- Embeds `StripeService.get_customer` (lines 104-138); no try/except. -/
def get_customer (s : StripeService)
    (provider : RetrieveCall → Except ProviderError ProviderCustomer)
    (customer_id : String) : Except FacadeError CustomerResponse :=
  match provider (get_customer_outbound s customer_id) with
  | .error e => .error (.raw e)
  | .ok customer => .ok { data := customerDataOf customer, meta := [] }

/-- The outbound call `update_customer` issues (lines 169-182). -/
def update_customer_outbound (s : StripeService) (customer_id : String)
    (data : CustomerUpdateInput) : ModifyCall :=
  { apiKey := s.secret_key, customer_id := customer_id,
    params := buildUpdateParams data }

/-- Embeds `StripeService.update_customer` (lines 140-198); no try/except. -/
def update_customer (s : StripeService)
    (provider : ModifyCall → Except ProviderError ProviderCustomer)
    (customer_id : String) (data : CustomerUpdateInput) :
    Except FacadeError CustomerResponse :=
  match provider (update_customer_outbound s customer_id data) with
  | .error e => .error (.raw e)
  | .ok stripe_customer => .ok { data := customerDataOf stripe_customer, meta := [] }

/-- The outbound call `get_customer_by_email` issues (line 224). -/
def get_customer_by_email_outbound (s : StripeService) (email : String) :
    EmailListCall :=
  { apiKey := s.secret_key, email := email }

/-- Embeds `StripeService.get_customer_by_email` (lines 200-252): maps every
returned record through the shared constructor, then builds the pluralized
note from the count (line 244) and the list meta; no try/except. -/
def get_customer_by_email (s : StripeService)
    (provider : EmailListCall → Except ProviderError ProviderList)
    (email : String) : Except FacadeError CustomerListResponse :=
  match provider (get_customer_by_email_outbound s email) with
  | .error e => .error (.raw e)
  | .ok customers_response =>
    let customers_data := customers_response.data.map customerDataOf
    let count := customers_data.length
    let note :=
      if count = 1 then "Found " ++ toString count ++ " customer"
      else "Found " ++ toString count ++ " customers"
    .ok { data := customers_data,
          meta := { has_more := customers_response.has_more,
                    total_count := count,
                    note := some note } }

/-- The outbound call `list_customers` issues (lines 286-295): the limit is
first clamped by `limit = min(limit, 100)`, and `starting_after` is added
only when truthy (`if starting_after:`). -/
def list_customers_outbound (s : StripeService) (limit : Int)
    (starting_after : Option String) : ListCall :=
  { apiKey := s.secret_key,
    limit := min limit 100,
    starting_after := if truthyStr starting_after then starting_after else none }

/-- Embeds `StripeService.list_customers` (lines 254-317): maps records through the
list-path constructor (which omits `phone`), builds the meta without a
`note=` keyword (so `note` takes its pydantic default `None`); no try/except. -/
def list_customers (s : StripeService)
    (provider : ListCall → Except ProviderError ProviderList)
    (limit : Int) (starting_after : Option String) :
    Except FacadeError CustomerListResponse :=
  match provider (list_customers_outbound s limit starting_after) with
  | .error e => .error (.raw e)
  | .ok customers_response =>
    let customers_data := customers_response.data.map customerDataOfListItem
    .ok { data := customers_data,
          meta := { has_more := customers_response.has_more,
                    total_count := customers_data.length,
                    note := none } }

/-! Helper lemmas shared by several claims. -/

/-- A truthy optional string is not `None`. -/
theorem truthyStr_ne_none {o : Option String} (h : truthyStr o = true) :
    o ≠ none := by
  cases o
  · simp [truthyStr] at h
  · simp

/-- Membership in the key list of a conditional singleton parameter block. -/
theorem mem_map_fst_ite {b : Bool} {k key : String} {v : ParamValue}
    (h : k ∈ (if b then [(key, v)] else []).map Prod.fst) :
    k = key ∧ b = true := by
  cases b <;> simp_all

/-! Concrete inputs used by witnesses and counterexamples. -/

/-- A create input with every optional field absent and default metadata. -/
def emptyCreateInput : CustomerCreateInput := ⟨none, none, none, none, []⟩

/-- A provider record whose `phone` field is set. -/
def phoneProviderCustomer : ProviderCustomer :=
  { id := "cus_1", email := some "a@b.com", name := some "A",
    phone := some "+301234", description := none, balance := some 0,
    currency := some "eur", delinquent := some false, created := some 5,
    metadata := none }

/-! Claim theorems. -/

/-- C1 counterexample: with a provider that raises, `create_customer` lets the
provider error escape as a raw provider exception — the result is
`FacadeError.raw`, which is not one of the four typed SDK error kinds
(`isWrapped` is `false`). The source has no try/except, so no wrapping ever
happens. -/
theorem C1_counterexample :
    create_customer ⟨"sk", "pk"⟩ (fun _ => Except.error ⟨"boom"⟩)
      emptyCreateInput = Except.error (FacadeError.raw ⟨"boom"⟩) ∧
    (FacadeError.raw ⟨"boom"⟩).isWrapped = false :=
  ⟨rfl, rfl⟩

/-- C1 amended: when the provider call raises, every facade operation
(create_customer, get_customer, update_customer, get_customer_by_email,
list_customers) surfaces the provider error unchanged as a raw provider
exception (the original error object is the error itself); the four typed SDK
error kinds are defined in `exceptions.py` but never raised by the facade. -/
theorem C1_raw_propagation (s : StripeService) (e : ProviderError)
    (pc : CreateCall → Except ProviderError ProviderCustomer)
    (d : CustomerCreateInput)
    (pr : RetrieveCall → Except ProviderError ProviderCustomer) (cid : String)
    (pm : ModifyCall → Except ProviderError ProviderCustomer) (uid : String)
    (u : CustomerUpdateInput)
    (pe : EmailListCall → Except ProviderError ProviderList) (em : String)
    (pl : ListCall → Except ProviderError ProviderList) (lim : Int)
    (cur : Option String) :
    (pc (create_customer_outbound s d) = .error e →
      create_customer s pc d = .error (.raw e)) ∧
    (pr (get_customer_outbound s cid) = .error e →
      get_customer s pr cid = .error (.raw e)) ∧
    (pm (update_customer_outbound s uid u) = .error e →
      update_customer s pm uid u = .error (.raw e)) ∧
    (pe (get_customer_by_email_outbound s em) = .error e →
      get_customer_by_email s pe em = .error (.raw e)) ∧
    (pl (list_customers_outbound s lim cur) = .error e →
      list_customers s pl lim cur = .error (.raw e)) := by
  refine ⟨?_, ?_, ?_, ?_, ?_⟩ <;> intro h <;>
    simp [create_customer, get_customer, update_customer,
      get_customer_by_email, list_customers, h]

/-- C1 witness: the raw-propagation theorem applied to concrete providers
that each raise a concrete error. -/
theorem C1_raw_propagation_witness :
    create_customer ⟨"sk", "pk"⟩ (fun _ => Except.error ⟨"e1"⟩)
      emptyCreateInput = Except.error (FacadeError.raw ⟨"e1"⟩) ∧
    get_customer ⟨"sk", "pk"⟩ (fun _ => Except.error ⟨"e1"⟩) "cus_1" =
      Except.error (FacadeError.raw ⟨"e1"⟩) ∧
    update_customer ⟨"sk", "pk"⟩ (fun _ => Except.error ⟨"e1"⟩) "cus_1"
      ⟨none, none, none, none, none⟩ = Except.error (FacadeError.raw ⟨"e1"⟩) ∧
    get_customer_by_email ⟨"sk", "pk"⟩ (fun _ => Except.error ⟨"e1"⟩)
      "a@b.com" = Except.error (FacadeError.raw ⟨"e1"⟩) ∧
    list_customers ⟨"sk", "pk"⟩ (fun _ => Except.error ⟨"e1"⟩) 10 none =
      Except.error (FacadeError.raw ⟨"e1"⟩) := by
  have h := C1_raw_propagation ⟨"sk", "pk"⟩ ⟨"e1"⟩
    (fun _ => Except.error ⟨"e1"⟩) emptyCreateInput
    (fun _ => Except.error ⟨"e1"⟩) "cus_1"
    (fun _ => Except.error ⟨"e1"⟩) "cus_1" ⟨none, none, none, none, none⟩
    (fun _ => Except.error ⟨"e1"⟩) "a@b.com"
    (fun _ => Except.error ⟨"e1"⟩) 10 none
  exact ⟨h.1 rfl, h.2.1 rfl, h.2.2.1 rfl, h.2.2.2.1 rfl, h.2.2.2.2 rfl⟩

/-- C2 counterexample: a provider record with `phone` set maps through
`list_customers` to a `CustomerData` whose `phone` is `None` — the list path
drops `phone` (its `CustomerData(...)` call at lines 300-310 has no `phone=`
keyword), contradicting the claim that list_customers preserves it. -/
theorem C2_counterexample :
    phoneProviderCustomer.phone = some "+301234" ∧
    list_customers ⟨"sk", "pk"⟩
      (fun _ => Except.ok ⟨[phoneProviderCustomer], false⟩) 10 none =
      Except.ok ⟨[⟨"cus_1", some "a@b.com", some "A", none, some 5, some 0,
        some "eur", some false, none, []⟩], ⟨false, 1, none⟩⟩ :=
  ⟨rfl, rfl⟩

/-- C2 amended: the mapping shared by create_customer, get_customer,
update_customer and get_customer_by_email copies every optional provider
field (email, name, phone, description, balance, currency, delinquent,
created) through unchanged; the list_customers mapping copies all of these
except `phone`, which it always sets to `None`. -/
theorem C2_field_copying (c : ProviderCustomer) :
    (customerDataOf c).email = c.email ∧
    (customerDataOf c).name = c.name ∧
    (customerDataOf c).phone = c.phone ∧
    (customerDataOf c).description = c.description ∧
    (customerDataOf c).balance = c.balance ∧
    (customerDataOf c).currency = c.currency ∧
    (customerDataOf c).delinquent = c.delinquent ∧
    (customerDataOf c).created = c.created ∧
    (customerDataOfListItem c).phone = none ∧
    (customerDataOfListItem c).email = c.email ∧
    (customerDataOfListItem c).name = c.name ∧
    (customerDataOfListItem c).description = c.description ∧
    (customerDataOfListItem c).balance = c.balance ∧
    (customerDataOfListItem c).currency = c.currency ∧
    (customerDataOfListItem c).delinquent = c.delinquent ∧
    (customerDataOfListItem c).created = c.created :=
  ⟨rfl, rfl, rfl, rfl, rfl, rfl, rfl, rfl,
   rfl, rfl, rfl, rfl, rfl, rfl, rfl, rfl⟩

/-- C3: the limit forwarded by `list_customers` is `min(limit, 100)`; at
`limit=150` the outbound call carries `limit=100`, and no error is raised for
the over-limit value (with a succeeding provider the call returns a result). -/
theorem C3_limit_clamped (s : StripeService) (limit : Int)
    (cursor : Option String)
    (provider : ListCall → Except ProviderError ProviderList) :
    (list_customers_outbound s limit cursor).limit = min limit 100 ∧
    (list_customers_outbound s 150 cursor).limit = 100 ∧
    (∀ resp, provider (list_customers_outbound s 150 cursor) = .ok resp →
      ∃ r, list_customers s provider 150 cursor = .ok r) := by
  refine ⟨rfl, by simp [list_customers_outbound], ?_⟩
  intro resp h
  refine ⟨⟨resp.data.map customerDataOfListItem,
    ⟨resp.has_more, (resp.data.map customerDataOfListItem).length, none⟩⟩, ?_⟩
  rw [list_customers, h]

/-- C3 witness: the clamping theorem applied at `limit=150` with a concrete
provider returning an empty page. -/
theorem C3_limit_clamped_witness :
    (list_customers_outbound ⟨"sk", "pk"⟩ 150 none).limit = 100 ∧
    ∃ r, list_customers ⟨"sk", "pk"⟩ (fun _ => Except.ok ⟨[], false⟩)
      150 none = .ok r :=
  ⟨(C3_limit_clamped ⟨"sk", "pk"⟩ 150 none
      (fun _ => Except.ok ⟨[], false⟩)).2.1,
   (C3_limit_clamped ⟨"sk", "pk"⟩ 150 none
      (fun _ => Except.ok ⟨[], false⟩)).2.2 ⟨[], false⟩ rfl⟩

/-- C4: in the outbound parameter set of `update_customer`, the `metadata`
key is absent when the input metadata is `None`, and present with value `{}`
when the input metadata is the empty mapping (`is not None` test, line 178). -/
theorem C4_update_metadata (data : CustomerUpdateInput) :
    (data.metadata = none →
      List.lookup "metadata" (buildUpdateParams data) = none) ∧
    (data.metadata = some [] →
      List.lookup "metadata" (buildUpdateParams data) =
        some (ParamValue.meta [])) := by
  obtain ⟨e, n, p, d, m⟩ := data
  constructor <;> rintro rfl <;>
    cases e <;> cases n <;> cases p <;> cases d <;> rfl

/-- C4 witness: the metadata theorem applied at a concrete all-`None` update
input and at one whose metadata is the empty mapping. -/
theorem C4_update_metadata_witness :
    List.lookup "metadata"
      (buildUpdateParams ⟨none, none, none, none, none⟩) = none ∧
    List.lookup "metadata"
      (buildUpdateParams ⟨none, none, none, none, some []⟩) =
      some (ParamValue.meta []) :=
  ⟨(C4_update_metadata ⟨none, none, none, none, none⟩).1 rfl,
   (C4_update_metadata ⟨none, none, none, none, some []⟩).2 rfl⟩

/-- C5: every key of the outbound parameter set built by `create_customer`
comes from an input field with a non-absent value — no absent optional field
is sent at all (truthiness tests at lines 74-83 include a key only when the
field holds a truthy, hence non-`None` resp. non-empty, value). -/
theorem C5_create_params_subset (data : CustomerCreateInput) :
    ∀ k ∈ (buildCreateParams data).map Prod.fst,
      (k = "email" ∧ data.email ≠ none) ∨
      (k = "name" ∧ data.name ≠ none) ∨
      (k = "phone" ∧ data.phone ≠ none) ∨
      (k = "description" ∧ data.description ≠ none) ∨
      (k = "metadata" ∧ data.metadata ≠ []) := by
  intro k hk
  rw [buildCreateParams, List.map_append, List.map_append, List.map_append,
    List.map_append] at hk
  rcases List.mem_append.1 hk with hk | hmeta
  · rcases List.mem_append.1 hk with hk | hdesc
    · rcases List.mem_append.1 hk with hk | hphone
      · rcases List.mem_append.1 hk with hemail | hname
        · obtain ⟨rfl, hb⟩ := mem_map_fst_ite hemail
          exact Or.inl ⟨rfl, truthyStr_ne_none hb⟩
        · obtain ⟨rfl, hb⟩ := mem_map_fst_ite hname
          exact Or.inr (Or.inl ⟨rfl, truthyStr_ne_none hb⟩)
      · obtain ⟨rfl, hb⟩ := mem_map_fst_ite hphone
        exact Or.inr (Or.inr (Or.inl ⟨rfl, truthyStr_ne_none hb⟩))
    · obtain ⟨rfl, hb⟩ := mem_map_fst_ite hdesc
      exact Or.inr (Or.inr (Or.inr (Or.inl ⟨rfl, truthyStr_ne_none hb⟩)))
  · refine Or.inr (Or.inr (Or.inr (Or.inr ?_)))
    cases hm : data.metadata.isEmpty
    · rw [hm] at hmeta
      simp at hmeta
      exact ⟨hmeta, by simpa [List.isEmpty_iff] using hm⟩
    · rw [hm] at hmeta
      simp at hmeta

/-- C5 witness: the subset theorem applied to a concrete input having only
`email` set, whose outbound parameter set is the singleton `email` entry. -/
theorem C5_create_params_subset_witness :
    ("email" = "email" ∧
      (CustomerCreateInput.mk (some "a@b.com") none none none []).email ≠
        none) ∨
    ("email" = "name" ∧
      (CustomerCreateInput.mk (some "a@b.com") none none none []).name ≠
        none) ∨
    ("email" = "phone" ∧
      (CustomerCreateInput.mk (some "a@b.com") none none none []).phone ≠
        none) ∨
    ("email" = "description" ∧
      (CustomerCreateInput.mk (some "a@b.com") none none none
        []).description ≠ none) ∨
    ("email" = "metadata" ∧
      (CustomerCreateInput.mk (some "a@b.com") none none none []).metadata ≠
        []) :=
  C5_create_params_subset ⟨some "a@b.com", none, none, none, []⟩ "email"
    (by decide)

/-- C6: `get_customer_by_email` populates `meta.note` with the pluralized
count summary: `"Found 1 customer"` when the provider returns exactly one
record, `"Found N customers"` otherwise, `N` being the count of returned
records (lines 243-244). -/
theorem C6_note_pluralization (s : StripeService) (email : String)
    (provider : EmailListCall → Except ProviderError ProviderList)
    (resp : ProviderList)
    (h : provider (get_customer_by_email_outbound s email) = .ok resp) :
    ∃ r, get_customer_by_email s provider email = .ok r ∧
      r.meta.note = some (if resp.data.length = 1 then "Found 1 customer"
        else "Found " ++ toString resp.data.length ++ " customers") := by
  refine ⟨_, by rw [get_customer_by_email, h], ?_⟩
  by_cases hl : resp.data.length = 1
  · simp [hl, List.length_map]
    rfl
  · simp [hl, List.length_map]

/-- C6 witness: the note theorem applied to concrete providers returning
zero, one and two records, yielding the three expected notes. -/
theorem C6_note_pluralization_witness :
    (∃ r, get_customer_by_email ⟨"sk", "pk"⟩
        (fun _ => Except.ok ⟨[phoneProviderCustomer], false⟩) "a@b.com" =
        .ok r ∧ r.meta.note = some "Found 1 customer") ∧
    (∃ r, get_customer_by_email ⟨"sk", "pk"⟩
        (fun _ => Except.ok ⟨[], false⟩) "a@b.com" =
        .ok r ∧ r.meta.note = some "Found 0 customers") ∧
    (∃ r, get_customer_by_email ⟨"sk", "pk"⟩
        (fun _ => Except.ok
          ⟨[phoneProviderCustomer, phoneProviderCustomer], false⟩)
        "a@b.com" = .ok r ∧ r.meta.note = some "Found 2 customers") :=
  ⟨C6_note_pluralization ⟨"sk", "pk"⟩ "a@b.com"
    (fun _ => Except.ok ⟨[phoneProviderCustomer], false⟩)
    ⟨[phoneProviderCustomer], false⟩ rfl,
   C6_note_pluralization ⟨"sk", "pk"⟩ "a@b.com"
    (fun _ => Except.ok ⟨[], false⟩) ⟨[], false⟩ rfl,
   C6_note_pluralization ⟨"sk", "pk"⟩ "a@b.com"
    (fun _ => Except.ok ⟨[phoneProviderCustomer, phoneProviderCustomer],
      false⟩) ⟨[phoneProviderCustomer, phoneProviderCustomer], false⟩ rfl⟩

/-- C7: `list_customers` never populates `meta.note` — the
`CustomerListMeta(...)` call at lines 312-315 passes no `note=` keyword, so
the field keeps its pydantic default `None`, for every limit, cursor and
provider response. -/
theorem C7_list_note_none (s : StripeService)
    (provider : ListCall → Except ProviderError ProviderList)
    (limit : Int) (cursor : Option String) (r : CustomerListResponse)
    (h : list_customers s provider limit cursor = .ok r) :
    r.meta.note = none := by
  rw [list_customers] at h
  cases hp : provider (list_customers_outbound s limit cursor) <;>
    rw [hp] at h
  · cases h
  · cases h
    rfl

/-- C7 witness: the note-is-`None` theorem applied to a concrete call whose
provider returns one record. -/
theorem C7_list_note_none_witness :
    (⟨[customerDataOfListItem phoneProviderCustomer],
      ⟨false, 1, none⟩⟩ : CustomerListResponse).meta.note = none :=
  C7_list_note_none ⟨"sk", "pk"⟩
    (fun _ => Except.ok ⟨[phoneProviderCustomer], false⟩) 10 none
    ⟨[customerDataOfListItem phoneProviderCustomer], ⟨false, 1, none⟩⟩ rfl

/-- C8: constructing a `CustomerCreateInput` with `name=""` (below the
minimum length 1) fails validation with a `ValidationError` naming the
`name` field — locally, before any network call, since validation takes no
provider — while construction with every optional field absent succeeds,
whatever the pydantic email check is. -/
theorem C8_validation (isEmail : String → Bool) :
    validateCreateInput isEmail none (some "") none none [] =
      .error ⟨"name", "min_length"⟩ ∧
    validateCreateInput isEmail none none none none [] =
      .ok ⟨none, none, none, none, []⟩ :=
  ⟨rfl, rfl⟩

/-- C9: constructing `CustomerData` from a provider record as `get_customer`
does and reading back each field yields the source values unchanged, and the
metadata is the empty mapping whenever the source metadata is absent or
empty. -/
theorem C9_roundtrip (c : ProviderCustomer) :
    (customerDataOf c).id = c.id ∧
    (customerDataOf c).email = c.email ∧
    (customerDataOf c).name = c.name ∧
    (customerDataOf c).phone = c.phone ∧
    (customerDataOf c).created = c.created ∧
    (customerDataOf c).balance = c.balance ∧
    (customerDataOf c).currency = c.currency ∧
    (customerDataOf c).delinquent = c.delinquent ∧
    (customerDataOf c).description = c.description ∧
    ((c.metadata = none ∨ c.metadata = some []) →
      (customerDataOf c).metadata = []) := by
  refine ⟨rfl, rfl, rfl, rfl, rfl, rfl, rfl, rfl, rfl, ?_⟩
  rintro (h | h) <;> simp [customerDataOf, metadataOrEmpty, h]

/-- C9 witness: the round-trip theorem applied to a concrete provider record
with absent metadata. -/
theorem C9_roundtrip_witness :
    (customerDataOf phoneProviderCustomer).id = phoneProviderCustomer.id ∧
    (customerDataOf phoneProviderCustomer).phone =
      phoneProviderCustomer.phone ∧
    (customerDataOf phoneProviderCustomer).metadata = [] :=
  ⟨(C9_roundtrip phoneProviderCustomer).1,
   (C9_roundtrip phoneProviderCustomer).2.2.2.1,
   (C9_roundtrip phoneProviderCustomer).2.2.2.2.2.2.2.2.2 (Or.inl rfl)⟩

/-- C10: the publishable key is stored at construction but never read by any
operation — two services with the same secret key and arbitrary (possibly
different) publishable keys issue identical outbound calls and return
identical results on every operation, for every provider. -/
theorem C10_publishable_key_independence (s1 s2 : StripeService)
    (h : s1.secret_key = s2.secret_key)
    (pc : CreateCall → Except ProviderError ProviderCustomer)
    (d : CustomerCreateInput)
    (pr : RetrieveCall → Except ProviderError ProviderCustomer) (cid : String)
    (pm : ModifyCall → Except ProviderError ProviderCustomer) (uid : String)
    (u : CustomerUpdateInput)
    (pe : EmailListCall → Except ProviderError ProviderList) (em : String)
    (pl : ListCall → Except ProviderError ProviderList) (lim : Int)
    (cur : Option String) :
    create_customer_outbound s1 d = create_customer_outbound s2 d ∧
    create_customer s1 pc d = create_customer s2 pc d ∧
    get_customer_outbound s1 cid = get_customer_outbound s2 cid ∧
    get_customer s1 pr cid = get_customer s2 pr cid ∧
    update_customer_outbound s1 uid u = update_customer_outbound s2 uid u ∧
    update_customer s1 pm uid u = update_customer s2 pm uid u ∧
    get_customer_by_email_outbound s1 em =
      get_customer_by_email_outbound s2 em ∧
    get_customer_by_email s1 pe em = get_customer_by_email s2 pe em ∧
    list_customers_outbound s1 lim cur = list_customers_outbound s2 lim cur ∧
    list_customers s1 pl lim cur = list_customers s2 pl lim cur := by
  refine ⟨?_, ?_, ?_, ?_, ?_, ?_, ?_, ?_, ?_, ?_⟩ <;>
    simp [create_customer, get_customer, update_customer,
      get_customer_by_email, list_customers, create_customer_outbound,
      get_customer_outbound, update_customer_outbound,
      get_customer_by_email_outbound, list_customers_outbound, h]

/-- C10 witness: the independence theorem applied to two concrete services
sharing a secret key but with different publishable keys. -/
theorem C10_publishable_key_independence_witness :
    create_customer ⟨"sk", "pk_one"⟩ (fun _ => Except.error ⟨"e"⟩)
        emptyCreateInput =
      create_customer ⟨"sk", "pk_two"⟩ (fun _ => Except.error ⟨"e"⟩)
        emptyCreateInput ∧
    list_customers_outbound ⟨"sk", "pk_one"⟩ 10 none =
      list_customers_outbound ⟨"sk", "pk_two"⟩ 10 none :=
  ⟨(C10_publishable_key_independence ⟨"sk", "pk_one"⟩ ⟨"sk", "pk_two"⟩ rfl
      (fun _ => Except.error ⟨"e"⟩) emptyCreateInput
      (fun _ => Except.error ⟨"e"⟩) "cus_1"
      (fun _ => Except.error ⟨"e"⟩) "cus_1" ⟨none, none, none, none, none⟩
      (fun _ => Except.error ⟨"e"⟩) "a@b.com"
      (fun _ => Except.error ⟨"e"⟩) 10 none).2.1,
   (C10_publishable_key_independence ⟨"sk", "pk_one"⟩ ⟨"sk", "pk_two"⟩ rfl
      (fun _ => Except.error ⟨"e"⟩) emptyCreateInput
      (fun _ => Except.error ⟨"e"⟩) "cus_1"
      (fun _ => Except.error ⟨"e"⟩) "cus_1" ⟨none, none, none, none, none⟩
      (fun _ => Except.error ⟨"e"⟩) "a@b.com"
      (fun _ => Except.error ⟨"e"⟩) 10 none).2.2.2.2.2.2.2.2.1⟩

end StripeSDK
